import Mathlib

/-!
# FISHDA water-quality dashboard — verification of the design spec

Shallow embedding of the core logic of the FISHDA browser dashboard:
the access-control guard (`src/js/authguard.js`), the role manager
(`rolemanager.js`), the threshold classification and alert lifecycle
engine (`src/js/alerts.js`), and the threshold configuration save path
(`systemConfig` page script).

Sensor values are modelled as rationals (JS numbers used only through
arithmetic comparisons and an absolute-difference test), timestamps as
naturals, and the Firebase stores as explicit lists threaded through
state-transformer functions.  Fallible asynchronous writes are modelled
by an explicit success flag passed to each operation.
-/

namespace Fishda

/-! ## Threshold classification (`alerts.js`, `checkThresholds`) -/

/-- One per-parameter Threshold Record
`{safeMin, safeMax, warnMin, warnMax}` (`systemConfig` page script,
`defaultThresholds`). -/
structure Threshold where
  safeMin : ℚ
  safeMax : ℚ
  warnMin : ℚ
  warnMax : ℚ
deriving DecidableEq, Repr

/-- Derived per-parameter state of the alert engine's state machine. -/
inductive Status where
  | safe
  | warning
  | critical
deriving DecidableEq, Repr

/-- The per-value branch structure of `checkThresholds`
(`alerts.js` lines 1791-1811): critical below `warnMin`, critical above
`warnMax`, warning in `[warnMin, safeMin)`, warning in
`(safeMax, warnMax]`, safe otherwise. -/
def classify (t : Threshold) (v : ℚ) : Status :=
  if v < t.warnMin then .critical
  else if v > t.warnMax then .critical
  else if v ≥ t.warnMin ∧ v < t.safeMin then .warning
  else if v > t.safeMax ∧ v ≤ t.warnMax then .warning
  else .safe

/-- The dashboard's status helper `getStatusClass` (`app.js`): critical
outside `[warnMin, warnMax]`, caution/warning outside
`[safeMin, safeMax]`, safe otherwise. -/
def getStatusClass (t : Threshold) (v : ℚ) : Status :=
  if v < t.warnMin ∨ v > t.warnMax then .critical
  else if v < t.safeMin ∨ v > t.safeMax then .warning
  else .safe

/-- Scenario B's Threshold Record for `temperature`
(also the `temperature` entry of `defaultThresholds`). -/
def tempThreshold : Threshold :=
  { safeMin := 26, safeMax := 32, warnMin := 24, warnMax := 34 }

/-! ## Access Control Gate (`authguard.js`, `checkAuth`) -/

/-- The three roles of the Role-Permission Table (`rolemanager.js`,
`ROLES`). -/
inductive Role where
  | admin
  | user
  | guest
deriving DecidableEq, Repr

/-- The client-local Session record read by `checkAuth` from
`localStorage.userSession`. -/
structure Session where
  isGuest : Bool
  isLoggedIn : Bool
  uid : Option String
  role : Option Role
deriving DecidableEq, Repr

/-- Outcome of a `checkAuth` run: allow the page, navigate away, or
clear the stored session and navigate away. -/
inductive AuthDecision where
  | allow
  | redirect (target : String)
  | clearSessionAndRedirect (target : String)
deriving DecidableEq, Repr

/-- JS `String.prototype.endsWith`, used for every page-path match in
`authguard.js`. -/
def endsWith (s suffix : String) : Bool :=
  suffix.data.isSuffixOf s.data

/-- `publicPages` (`authguard.js` lines 17-23). -/
def publicPages : List String :=
  ["/index.html", "/html/signup.html", "/forgot-password.html",
   "/html/forgotpassword.html", "/"]

/-- `isPublicPage` (`authguard.js` line 26). -/
def isPublicPage (p : String) : Bool :=
  publicPages.any (fun page => endsWith p page)

/-- `guestAllowedPages` (`authguard.js` lines 53-56). -/
def guestAllowedPages : List String :=
  ["/html/dashboard.html", "/html/about.html"]

/-- `isGuestAllowed` (`authguard.js` line 58). -/
def isGuestAllowedPage (p : String) : Bool :=
  guestAllowedPages.any (fun page => endsWith p page)

/-- `adminOnlyPages` (`authguard.js` lines 80-83). -/
def adminOnlyPages : List String :=
  ["/html/admindashboard.html", "/html/user-management.html"]

/-- `isAdminPage` (`authguard.js` line 85). -/
def isAdminOnlyPage (p : String) : Bool :=
  adminOnlyPages.any (fun page => endsWith p page)

/-- `checkAuth` (`authguard.js` lines 9-108).  `stored = none` models no
`userSession` item; `stored = some none` models a stored string whose
`JSON.parse` throws (the `catch` branch). -/
def checkAuth (currentPage : String) (stored : Option (Option Session)) :
    AuthDecision :=
  if isPublicPage currentPage then .allow
  else
    match stored with
    | none => .redirect "/index.html"
    | some none => .clearSessionAndRedirect "/index.html"
    | some (some session) =>
      if session.isGuest then
        if isGuestAllowedPage currentPage then .allow
        else .redirect "/html/dashboard.html"
      else if session.isLoggedIn && session.uid.isSome then
        let userRole := session.role.getD .user
        if isAdminOnlyPage currentPage = true ∧ userRole ≠ .admin then
          .redirect "/html/dashboard.html"
        else .allow
      else .clearSessionAndRedirect "/index.html"

/-- The per-role page lists of `NAV_MENU` (`rolemanager.js` lines
64-85), the spec's Page-Access Matrix (href fields only). -/
def NAV_MENU : Role → List String
  | .guest => ["/html/dashboard.html", "/html/about.html"]
  | .user => ["/html/dashboard.html", "/html/alerts.html", "/html/history.html",
      "/html/reports.html", "/html/about.html"]
  | .admin => ["/html/admindashboard.html", "/html/dashboard.html",
      "/html/alerts.html", "/html/history.html", "/html/reports.html",
      "/html/systemConfig.html", "/html/about.html"]

/-- A well-formed Session holding role `r`: the guest flag for `guest`,
a logged-in Session with a uid and the cached role otherwise. -/
def sessionFor : Role → Session
  | .guest =>
      { isGuest := true, isLoggedIn := false, uid := none,
        role := some .guest }
  | .user =>
      { isGuest := false, isLoggedIn := true, uid := some "user-uid",
        role := some .user }
  | .admin =>
      { isGuest := false, isLoggedIn := true, uid := some "admin-uid",
        role := some .admin }

/-! ## Alert Lifecycle Engine (`alerts.js`) -/

/-- An active alert record (`alerts/active/{id}`); `id` models the
Firebase push key. -/
structure Alert where
  id : Nat
  parameter : String
  value : ℚ
  threshold : String
  severity : String
  message : String
  timestamp : Nat
deriving DecidableEq, Repr

/-- JS `value.toFixed(2)` applied to a numeric reading before storing
it: the value rounded to two decimal places (round half up; stored as a
string in JS, modelled by the rounded rational). -/
def toFixed2 (v : ℚ) : ℚ :=
  ((v * 100 + mkRat 1 2).floor : ℚ) / 100

/-- The `alerts/active` store plus the push-key generator; `alerts.js`
mirrors this store into its `activeAlerts` array. -/
structure ActiveStore where
  alerts : List Alert
  nextId : Nat
deriving DecidableEq, Repr

/-- `createOrUpdateAlert` (`alerts.js` lines 1822-1861): if any active
alert for the parameter exists, update its
value/threshold/severity/message/timestamp in place; otherwise push a
new alert record. -/
def createOrUpdateAlert (st : ActiveStore) (parameter : String) (value : ℚ)
    (threshold severity message : String) (now : Nat) : ActiveStore :=
  match st.alerts.find? (fun a => a.parameter == parameter) with
  | some existing =>
      { st with
        alerts := st.alerts.map fun a =>
          if a.id == existing.id then
            { a with value := toFixed2 value, threshold := threshold,
                     severity := severity, message := message,
                     timestamp := now }
          else a }
  | none =>
      { alerts := st.alerts ++
          [{ id := st.nextId, parameter := parameter, value := toFixed2 value,
             threshold := threshold, severity := severity, message := message,
             timestamp := now }],
        nextId := st.nextId + 1 }

/-- Number of active alerts stored for a parameter. -/
def activeCountFor (st : ActiveStore) (parameter : String) : Nat :=
  st.alerts.countP (fun a => a.parameter == parameter)

/-- A record of the `alerts/history` store.  Fields a given write leaves
out of its object literal are modelled as `false`/`none`. -/
structure HistoryRecord where
  parameter : String
  value : ℚ
  threshold : String
  severity : String
  message : String
  timestamp : Nat
  acknowledged : Bool
  acknowledgedAt : Option Nat
  dismissed : Bool
  dismissedAt : Option Nat
  autoResolved : Bool
  resolvedMessage : Option String
deriving DecidableEq, Repr

/-- The history object written by `acknowledgeAlert` (`alerts.js` lines
1525-1534). -/
def ackHistoryData (a : Alert) (now : Nat) : HistoryRecord :=
  { parameter := a.parameter, value := a.value, threshold := a.threshold,
    severity := a.severity, message := a.message, timestamp := a.timestamp,
    acknowledged := true, acknowledgedAt := some now,
    dismissed := false, dismissedAt := none,
    autoResolved := false, resolvedMessage := none }

/-- The history object written by `dismissAlert` (`alerts.js` lines
1572-1582). -/
def dismissHistoryData (a : Alert) (now : Nat) : HistoryRecord :=
  { parameter := a.parameter, value := a.value, threshold := a.threshold,
    severity := a.severity, message := a.message, timestamp := a.timestamp,
    acknowledged := false, acknowledgedAt := none,
    dismissed := true, dismissedAt := some now,
    autoResolved := false, resolvedMessage := none }

/-- The history object written by `autoResolveAlert` (`alerts.js` lines
1868-1879). -/
def autoResolveHistoryData (a : Alert) (now : Nat) : HistoryRecord :=
  { parameter := a.parameter, value := a.value, threshold := a.threshold,
    severity := a.severity, message := a.message, timestamp := a.timestamp,
    acknowledged := true, acknowledgedAt := some now,
    dismissed := false, dismissedAt := none,
    autoResolved := true,
    resolvedMessage := some "Parameter returned to normal range" }

/-- The two alert stores seen by the manual and automatic
transitions. -/
structure AlertsState where
  active : List Alert
  history : List HistoryRecord
deriving DecidableEq, Repr

/-- `acknowledgeAlert` (`alerts.js` lines 1509-1550).  `writeOk` models
whether the chained history `set()` promise resolves; the active
`remove()` runs only in its `.then`.  The second component is whether
the alert's card is visible afterwards: hidden optimistically, restored
by the `.catch` on failure. -/
def acknowledgeAlert (st : AlertsState) (alertId : Nat) (now : Nat)
    (writeOk : Bool) : AlertsState × Bool :=
  match st.active.find? (fun a => a.id == alertId) with
  | none => (st, true)
  | some alert =>
      if writeOk then
        ({ active := st.active.filter (fun a => !(a.id == alertId)),
           history := st.history ++ [ackHistoryData alert now] }, false)
      else (st, true)

/-- `dismissAlert` (`alerts.js` lines 1552-1598): identical transition
shape, guarded by a caller confirmation, writing the dismissal
record. -/
def dismissAlert (st : AlertsState) (alertId : Nat) (now : Nat)
    (confirmed writeOk : Bool) : AlertsState × Bool :=
  if !confirmed then (st, true)
  else
    match st.active.find? (fun a => a.id == alertId) with
    | none => (st, true)
    | some alert =>
        if writeOk then
          ({ active := st.active.filter (fun a => !(a.id == alertId)),
             history := st.history ++ [dismissHistoryData alert now] }, false)
        else (st, true)

/-- `autoResolveAlert` (`alerts.js` lines 1863-1887): look up the active
alert for the parameter; push the auto-resolution record to history and,
only when that `set()` resolves, remove the active record (there is no
`.catch`, so on failure the active alert simply stays). -/
def autoResolveAlert (st : AlertsState) (parameter : String) (now : Nat)
    (writeOk : Bool) : AlertsState :=
  match st.active.find? (fun a => a.parameter == parameter) with
  | none => st
  | some alert =>
      if writeOk then
        { active := st.active.filter (fun a => !(a.id == alert.id)),
          history := st.history ++ [autoResolveHistoryData alert now] }
      else st

/-- `acknowledgeAll` (`alerts.js` lines 1600-1649).  For every active
alert the history `set()` and the active `remove()` are pushed into the
same `promises` array as independent, unchained promises; `writeOk i`
models whether the history write for the alert with id `i` resolves
(the removals themselves succeed).  The two booleans are whether all
cards were restored and whether the generic failure message was shown —
both happen in the single `Promise.all(...).catch`. -/
def acknowledgeAll (st : AlertsState) (now : Nat) (writeOk : Nat → Bool)
    (confirmed : Bool) : AlertsState × Bool × Bool :=
  if st.active.isEmpty then (st, false, false)
  else if !confirmed then (st, false, false)
  else
    let anyFailure := st.active.any (fun a => !(writeOk a.id))
    ({ active := [],
       history := st.history ++
         (st.active.filter (fun a => writeOk a.id)).map
           (fun a => ackHistoryData a now) },
     anyFailure, anyFailure)

/-- History-card badge choice of `createAlertCard` (`alerts.js` lines
1270-1282): `dismissed` is tested first, then `acknowledged`, then
`autoResolved`. -/
def historyCardStatus (r : HistoryRecord) : String :=
  if r.dismissed then "Dismissed"
  else if r.acknowledged then "Acknowledged"
  else if r.autoResolved then "Auto-Resolved"
  else ""

/-- The `Acknowledged` CSV cell of `exportHistory` (`alerts.js` line
1668). -/
def exportAcknowledgedCell (r : HistoryRecord) : String :=
  if r.acknowledged then "Yes" else "No"

/-! ## Realtime listener change detection (`alerts.js`) -/

/-- One sensor snapshot as read by the realtime listener; each monitored
parameter may be absent, and `lastUpdate` is the reading's reported
update time (already converted to a timestamp). -/
structure SensorReading where
  doValue : Option ℚ
  temperature : Option ℚ
  salinity : Option ℚ
  turbidity : Option ℚ
  ph : Option ℚ
  lastUpdate : Nat
deriving DecidableEq, Repr

/-- `sensorData[param]` for the five monitored parameter names. -/
def paramValue (d : SensorReading) : String → Option ℚ
  | "do" => d.doValue
  | "temperature" => d.temperature
  | "salinity" => d.salinity
  | "turbidity" => d.turbidity
  | "ph" => d.ph
  | _ => none

/-- The parameter list of `checkIfValuesChanged` (`alerts.js` line
1757). -/
def monitoredParams : List String :=
  ["do", "temperature", "salinity", "turbidity", "ph"]

/-- `checkIfValuesChanged` (`alerts.js` lines 1751-1771): true when no
previous reading exists, otherwise true iff some parameter present in
both readings differs by more than the absolute epsilon 0.01
(`mkRat 1 100`). -/
def checkIfValuesChanged (newData : SensorReading)
    (oldData : Option SensorReading) : Bool :=
  match oldData with
  | none => true
  | some old =>
      monitoredParams.any fun p =>
        match paramValue newData p, paramValue old p with
        | some nv, some ov => decide (|nv - ov| > mkRat 1 100)
        | _, _ => false

/-- The listener-local state of `setupRealtimeAlertListeners`
(`alerts.js` lines 1716-1749): `lastCheckTime` and
`previousReadings` (`none` models the initial empty object). -/
structure ListenerState where
  lastCheckTime : Nat
  previousReadings : Option SensorReading
deriving DecidableEq, Repr

/-- One `sensors` value-event of `setupRealtimeAlertListeners`: returns
the updated listener state and whether `checkThresholds` was run on the
reading. -/
def setupRealtimeStep (st : ListenerState) (data : SensorReading) :
    ListenerState × Bool :=
  if data.lastUpdate > st.lastCheckTime then
    if checkIfValuesChanged data st.previousReadings then
      ({ lastCheckTime := data.lastUpdate, previousReadings := some data },
       true)
    else ({ st with lastCheckTime := data.lastUpdate }, false)
  else (st, false)

/-! ## Threshold Configuration save path (`systemConfig` page script) -/

/-- Outcome of `saveThresholds`: either every parameter validated and
the whole map is persisted, or the save is blocked with a
parameter-specific error. -/
inductive SaveResult where
  | saved (thresholds : List (String × Threshold))
  | rejected (sensor : String) (message : String)
deriving DecidableEq, Repr

/-- The per-sensor validation of `saveThresholds`: `safeMin >= safeMax`
and `warnMin >= warnMax` each block the save (NaN parsing is out of this
model: inputs arrive as rationals). -/
def validateThresholdInput (t : Threshold) : Option String :=
  if t.safeMin ≥ t.safeMax then some "Safe Min must be less than Safe Max"
  else if t.warnMin ≥ t.warnMax then
    some "Warning Min must be less than Warning Max"
  else none

/-- `saveThresholds` (`systemConfig` page script, lines 583-663):
validate each sensor's four values in order, returning on the first
failure with that sensor's error; if every sensor validates, persist the
collected map. -/
def saveThresholds : List (String × Threshold) → SaveResult
  | [] => .saved []
  | (sensor, t) :: rest =>
      match validateThresholdInput t with
      | some msg => .rejected sensor msg
      | none =>
          match saveThresholds rest with
          | .saved ts => .saved ((sensor, t) :: ts)
          | .rejected s2 m2 => .rejected s2 m2

/-! ## Role resolution (`rolemanager.js`, `getCurrentUserRole`) -/

/-- The slice of a `users/{id}` User Record read by role resolution. -/
structure UserRecord where
  role : Option Role
deriving DecidableEq, Repr

/-- The server-of-record as seen by one `getCurrentUserRole` call:
unavailable (`firebase`/`firebase.database` undefined), reachable with
its `users` table, or failing (the awaited read throws). -/
inductive ServerState where
  | unavailable
  | reachable (users : List (String × UserRecord))
  | failing
deriving DecidableEq, Repr

/-- `getCurrentUserRole` (`rolemanager.js` lines 98-136): explicit guest
flag first; then, when the session has a uid and the server is
reachable, the server-side role (defaulting to `user` when the record
has none); then the role cached in the session; then `guest`.  A thrown
read or a malformed stored session lands in the `catch`, returning
`guest`. -/
def getCurrentUserRole (stored : Option (Option Session))
    (server : ServerState) : Role :=
  match stored with
  | none => .guest
  | some none => .guest
  | some (some session) =>
      if session.isGuest then .guest
      else
        match session.uid, server with
        | some _, .failing => .guest
        | some uid, .reachable users =>
            match users.lookup uid with
            | some userData => userData.role.getD .user
            | none => session.role.getD .guest
        | _, _ => session.role.getD .guest

/-! ## Theorems -/

/-- `checkThresholds`'s banding agrees with `getStatusClass`'s: the
redundant bounds in the two warning branches are implied by the
preceding critical tests. -/
theorem classify_eq_statusClass (t : Threshold) (v : ℚ) :
    classify t v = getStatusClass t v := by
  unfold classify getStatusClass
  by_cases h1 : v < t.warnMin <;> by_cases h2 : v > t.warnMax <;>
    by_cases h3 : v < t.safeMin <;> by_cases h4 : v > t.safeMax <;>
    simp_all [not_lt] <;> split_ifs <;>
    first
      | rfl
      | (exfalso; (try casesm* _ ∨ _, _ ∧ _) <;> linarith)

/-- Unfolding of the critical branch of `getStatusClass`. -/
theorem getStatusClass_eq_critical_iff (t : Threshold) (v : ℚ) :
    getStatusClass t v = .critical ↔ (v < t.warnMin ∨ v > t.warnMax) := by
  unfold getStatusClass
  split_ifs <;> simp_all

/-- Unfolding of the warning branch of `getStatusClass`. -/
theorem getStatusClass_eq_warning_iff (t : Threshold) (v : ℚ) :
    getStatusClass t v = .warning ↔
      (¬(v < t.warnMin ∨ v > t.warnMax) ∧ (v < t.safeMin ∨ v > t.safeMax)) := by
  unfold getStatusClass
  split_ifs <;> simp_all

/-- Unfolding of the safe branch of `getStatusClass`. -/
theorem getStatusClass_eq_safe_iff (t : Threshold) (v : ℚ) :
    getStatusClass t v = .safe ↔
      (¬(v < t.warnMin ∨ v > t.warnMax) ∧ ¬(v < t.safeMin ∨ v > t.safeMax)) := by
  unfold getStatusClass
  split_ifs <;> simp_all

/-- C2: for every Threshold Record and observed value, the alert
engine's classification (`checkThresholds`) is Critical iff
`v < warnMin ∨ v > warnMax`, Warning iff it is not Critical and
`v < safeMin ∨ v > safeMax`, and Safe otherwise; it agrees with the
dashboard's `getStatusClass`; and on
`{safeMin 26, safeMax 32, warnMin 24, warnMax 34}` the value 35 is
Critical, 33 is Warning, and 28 is Safe. -/
theorem classify_bands :
    (∀ t : Threshold, ∀ v : ℚ,
      (classify t v = .critical ↔ (v < t.warnMin ∨ v > t.warnMax)) ∧
      (classify t v = .warning ↔
        (¬(v < t.warnMin ∨ v > t.warnMax) ∧ (v < t.safeMin ∨ v > t.safeMax))) ∧
      (classify t v = .safe ↔
        (¬(v < t.warnMin ∨ v > t.warnMax) ∧ ¬(v < t.safeMin ∨ v > t.safeMax))) ∧
      classify t v = getStatusClass t v) ∧
    classify tempThreshold 35 = .critical ∧
    classify tempThreshold 33 = .warning ∧
    classify tempThreshold 28 = .safe := by
  refine ⟨fun t v => ⟨?_, ?_, ?_, classify_eq_statusClass t v⟩,
    by decide, by decide, by decide⟩
  · rw [classify_eq_statusClass]; exact getStatusClass_eq_critical_iff t v
  · rw [classify_eq_statusClass]; exact getStatusClass_eq_warning_iff t v
  · rw [classify_eq_statusClass]; exact getStatusClass_eq_safe_iff t v

/-- C3: classification is a total function assigning each value exactly
one of safe/warning/critical, and widening the thresholds of an
invariant-satisfying Threshold Record never turns a Safe value
Critical. -/
theorem classify_total_and_monotone :
    (∀ t : Threshold, ∀ v : ℚ, ∃! s : Status, classify t v = s) ∧
    (∀ t : Threshold, ∀ v : ℚ,
      classify t v = .safe ∨ classify t v = .warning ∨ classify t v = .critical) ∧
    (∀ t t2 : Threshold, ∀ v : ℚ,
      t.warnMin ≤ t.safeMin → t.safeMin ≤ t.safeMax → t.safeMax ≤ t.warnMax →
      t2.warnMin ≤ t.warnMin → t2.safeMin ≤ t.safeMin →
      t.safeMax ≤ t2.safeMax → t.warnMax ≤ t2.warnMax →
      classify t v = .safe → classify t2 v ≠ .critical) := by
  refine ⟨fun t v => ⟨classify t v, rfl, fun s hs => hs.symm⟩,
    fun t v => ?_, fun t t2 v hi1 hi2 hi3 hw1 hw2 hw3 hw4 hsafe => ?_⟩
  · cases h : classify t v <;> simp
  · rw [classify_eq_statusClass, getStatusClass_eq_safe_iff] at hsafe
    rw [classify_eq_statusClass, Ne, getStatusClass_eq_critical_iff]
    push_neg at hsafe ⊢
    obtain ⟨⟨ha, hb⟩, hc, hd⟩ := hsafe
    constructor <;> linarith

/-- Witness for C3 at Scenario B's record, widened by one on every
boundary, at the safe value 28. -/
theorem classify_total_and_monotone_witness :
    classify { safeMin := 25, safeMax := 33, warnMin := 23, warnMax := 35 } 28 ≠
      .critical :=
  classify_total_and_monotone.2.2 tempThreshold
    { safeMin := 25, safeMax := 33, warnMin := 23, warnMax := 35 } 28
    (by decide) (by decide) (by decide) (by decide) (by decide) (by decide)
    (by decide) (by decide)

/-- Unfolding of the update branch of `createOrUpdateAlert`. -/
theorem createOrUpdateAlert_of_found {st : ActiveStore} {p : String}
    {ex : Alert} (h : st.alerts.find? (fun a => a.parameter == p) = some ex)
    (v : ℚ) (thr sev msg : String) (now : Nat) :
    createOrUpdateAlert st p v thr sev msg now =
      { st with
        alerts := st.alerts.map fun a =>
          if a.id == ex.id then
            { a with value := toFixed2 v, threshold := thr,
                     severity := sev, message := msg, timestamp := now }
          else a } := by
  unfold createOrUpdateAlert
  rw [h]

/-- Unfolding of the create branch of `createOrUpdateAlert`. -/
theorem createOrUpdateAlert_of_not_found {st : ActiveStore} {p : String}
    (h : st.alerts.find? (fun a => a.parameter == p) = none)
    (v : ℚ) (thr sev msg : String) (now : Nat) :
    createOrUpdateAlert st p v thr sev msg now =
      { alerts := st.alerts ++ [⟨st.nextId, p, toFixed2 v, thr, sev, msg, now⟩],
        nextId := st.nextId + 1 } := by
  unfold createOrUpdateAlert
  rw [h]

/-- When an active alert for the parameter already exists,
`createOrUpdateAlert` maps the store in place: the store keeps its
length and every per-parameter count. -/
theorem createOrUpdateAlert_found_counts {st : ActiveStore} {p : String}
    {ex : Alert} (h : st.alerts.find? (fun a => a.parameter == p) = some ex)
    (v : ℚ) (thr sev msg : String) (now : Nat) :
    (createOrUpdateAlert st p v thr sev msg now).alerts.length =
        st.alerts.length ∧
      ∀ q, activeCountFor (createOrUpdateAlert st p v thr sev msg now) q =
        activeCountFor st q := by
  rw [createOrUpdateAlert_of_found h v thr sev msg now]
  refine ⟨List.length_map _ _, fun q => ?_⟩
  unfold activeCountFor
  rw [List.countP_map]
  congr 1
  funext a
  by_cases hid : a.id = ex.id <;> simp [hid]

/-- C4: `createOrUpdateAlert` preserves the at-most-one-active-alert-
per-parameter invariant; when an active alert for the parameter exists
it updates in place (store length and all per-parameter counts
unchanged); and feeding the same out-of-band reading twice from a state
with no active alert for the parameter leaves exactly one active alert
for it, carrying the second feed's timestamp and (rounded) value. -/
theorem createOrUpdateAlert_single_active :
    (∀ st : ActiveStore, ∀ p : String, ∀ v : ℚ, ∀ thr sev msg : String,
      ∀ now : Nat, (∀ q, activeCountFor st q ≤ 1) →
      ∀ q, activeCountFor (createOrUpdateAlert st p v thr sev msg now) q ≤ 1) ∧
    (∀ st : ActiveStore, ∀ p : String, ∀ v : ℚ, ∀ thr sev msg : String,
      ∀ now : Nat, 1 ≤ activeCountFor st p →
      (createOrUpdateAlert st p v thr sev msg now).alerts.length =
          st.alerts.length ∧
        ∀ q, activeCountFor (createOrUpdateAlert st p v thr sev msg now) q =
          activeCountFor st q) ∧
    (∀ st : ActiveStore, ∀ p : String, ∀ v : ℚ, ∀ thr sev msg : String,
      ∀ t1 t2 : Nat, activeCountFor st p = 0 →
      activeCountFor
          (createOrUpdateAlert (createOrUpdateAlert st p v thr sev msg t1)
            p v thr sev msg t2) p = 1 ∧
        ∃ a ∈ (createOrUpdateAlert (createOrUpdateAlert st p v thr sev msg t1)
            p v thr sev msg t2).alerts,
          a.parameter = p ∧ a.timestamp = t2 ∧ a.value = toFixed2 v) := by
  refine ⟨fun st p v thr sev msg now hinv q => ?_,
    fun st p v thr sev msg now hpos => ?_,
    fun st p v thr sev msg t1 t2 h0 => ?_⟩
  · cases hfind : st.alerts.find? (fun a => a.parameter == p) with
    | some ex =>
        rw [(createOrUpdateAlert_found_counts hfind v thr sev msg now).2 q]
        exact hinv q
    | none =>
        rw [createOrUpdateAlert_of_not_found hfind]
        unfold activeCountFor at *
        simp only [List.countP_append]
        by_cases hq : p = q
        · subst hq
          have hzero : st.alerts.countP (fun a => a.parameter == p) = 0 :=
            List.countP_eq_zero.mpr (List.find?_eq_none.mp hfind)
          simp [hzero, List.countP_cons]
        · have hne : ((⟨st.nextId, p, toFixed2 v, thr, sev, msg, now⟩ :
              Alert).parameter == q) = false := by
            simpa using hq
          simpa [List.countP_cons, hne] using hinv q
  · cases hfind : st.alerts.find? (fun a => a.parameter == p) with
    | some ex => exact createOrUpdateAlert_found_counts hfind v thr sev msg now
    | none =>
        exfalso
        have hzero : activeCountFor st p = 0 :=
          List.countP_eq_zero.mpr (List.find?_eq_none.mp hfind)
        omega
  · have hfindnone : st.alerts.find? (fun a => a.parameter == p) = none :=
      List.find?_eq_none.mpr (List.countP_eq_zero.mp h0)
    have hst1 : createOrUpdateAlert st p v thr sev msg t1 =
        { alerts := st.alerts ++
            [⟨st.nextId, p, toFixed2 v, thr, sev, msg, t1⟩],
          nextId := st.nextId + 1 } :=
      createOrUpdateAlert_of_not_found hfindnone v thr sev msg t1
    have hfind1 : (createOrUpdateAlert st p v thr sev msg t1).alerts.find?
        (fun a => a.parameter == p) =
        some ⟨st.nextId, p, toFixed2 v, thr, sev, msg, t1⟩ := by
      rw [hst1]
      rw [List.find?_append, hfindnone]
      simp [List.find?]
    have hcount1 : activeCountFor (createOrUpdateAlert st p v thr sev msg t1)
        p = 1 := by
      rw [hst1]
      unfold activeCountFor at *
      simp [List.countP_append, h0, List.countP_cons]
    refine ⟨?_, ?_⟩
    · rw [(createOrUpdateAlert_found_counts hfind1 v thr sev msg t2).2 p]
      exact hcount1
    · rw [createOrUpdateAlert_of_found hfind1 v thr sev msg t2]
      refine ⟨{ (⟨st.nextId, p, toFixed2 v, thr, sev, msg, t1⟩ : Alert) with
          value := toFixed2 v, threshold := thr, severity := sev,
          message := msg, timestamp := t2 }, ?_, rfl, rfl, rfl⟩
      refine List.mem_map.mpr
        ⟨⟨st.nextId, p, toFixed2 v, thr, sev, msg, t1⟩, ?_, by simp⟩
      rw [hst1]
      exact List.mem_append_right _ (List.mem_singleton.mpr rfl)

/-- Witness for C4 at an empty store, parameter `ph`, reading 9, fed at
times 10 and 20. -/
theorem createOrUpdateAlert_single_active_witness :
    activeCountFor
        (createOrUpdateAlert
          (createOrUpdateAlert ⟨[], 0⟩ "ph" 9 "thr" "critical" "msg" 10)
          "ph" 9 "thr" "critical" "msg" 20) "ph" = 1 ∧
      ∃ a ∈ (createOrUpdateAlert
          (createOrUpdateAlert ⟨[], 0⟩ "ph" 9 "thr" "critical" "msg" 10)
          "ph" 9 "thr" "critical" "msg" 20).alerts,
        a.parameter = "ph" ∧ a.timestamp = 20 ∧ a.value = toFixed2 9 :=
  createOrUpdateAlert_single_active.2.2 ⟨[], 0⟩ "ph" 9 "thr" "critical"
    "msg" 10 20 rfl

/-- Removing the entries matching a predicate splits the length of an
alert list into kept and removed parts. -/
theorem length_filter_not_countP (l : List Alert) (p : Alert → Bool) :
    (l.filter (fun b => !(p b))).length + l.countP p = l.length := by
  induction l with
  | nil => simp
  | cons a l ih =>
      by_cases h : p a <;>
        simp [List.filter_cons, List.countP_cons, h] <;> omega

/-- C6: `acknowledgeAlert`, `dismissAlert` (once confirmed) and
`autoResolveAlert` each move exactly one record from Active to History:
on a successful history write, the matching record's history object is
appended, the active store shrinks by exactly one, the moved record's
id is gone from Active and every other alert is retained; when the
history write fails, the active store and history are unchanged (the
chained removal never runs) and the card is restored. -/
theorem transitions_move_exactly_one :
    (∀ st : AlertsState, ∀ i now : Nat, ∀ a : Alert,
      st.active.find? (fun b => b.id == i) = some a →
      st.active.countP (fun b => b.id == i) = 1 →
      ((acknowledgeAlert st i now true).1.history =
          st.history ++ [ackHistoryData a now] ∧
        (acknowledgeAlert st i now true).1.active.length + 1 =
          st.active.length ∧
        (∀ b ∈ (acknowledgeAlert st i now true).1.active, b.id ≠ i) ∧
        (∀ b ∈ st.active, b.id ≠ i →
          b ∈ (acknowledgeAlert st i now true).1.active)) ∧
      acknowledgeAlert st i now false = (st, true)) ∧
    (∀ st : AlertsState, ∀ i now : Nat, ∀ a : Alert,
      st.active.find? (fun b => b.id == i) = some a →
      st.active.countP (fun b => b.id == i) = 1 →
      ((dismissAlert st i now true true).1.history =
          st.history ++ [dismissHistoryData a now] ∧
        (dismissAlert st i now true true).1.active.length + 1 =
          st.active.length ∧
        (∀ b ∈ (dismissAlert st i now true true).1.active, b.id ≠ i) ∧
        (∀ b ∈ st.active, b.id ≠ i →
          b ∈ (dismissAlert st i now true true).1.active)) ∧
      dismissAlert st i now true false = (st, true)) ∧
    (∀ st : AlertsState, ∀ p : String, ∀ now : Nat, ∀ a : Alert,
      st.active.find? (fun b => b.parameter == p) = some a →
      st.active.countP (fun b => b.id == a.id) = 1 →
      ((autoResolveAlert st p now true).history =
          st.history ++ [autoResolveHistoryData a now] ∧
        (autoResolveAlert st p now true).active.length + 1 =
          st.active.length ∧
        (∀ b ∈ (autoResolveAlert st p now true).active, b.id ≠ a.id) ∧
        (∀ b ∈ st.active, b.id ≠ a.id →
          b ∈ (autoResolveAlert st p now true).active)) ∧
      autoResolveAlert st p now false = st) := by
  refine ⟨fun st i now a hfind hcount => ?_,
    fun st i now a hfind hcount => ?_,
    fun st p now a hfind hcount => ?_⟩
  · unfold acknowledgeAlert
    rw [hfind]
    refine ⟨⟨rfl, ?_, fun b hb => ?_, fun b hb hne => ?_⟩, rfl⟩
    · show (st.active.filter (fun b => !(b.id == i))).length + 1 =
        st.active.length
      have h := length_filter_not_countP st.active (fun b => b.id == i)
      omega
    · have hbp := (List.mem_filter.mp hb).2
      simpa using hbp
    · exact List.mem_filter.mpr ⟨hb, by simpa using hne⟩
  · unfold dismissAlert
    rw [hfind]
    refine ⟨⟨rfl, ?_, fun b hb => ?_, fun b hb hne => ?_⟩, rfl⟩
    · show (st.active.filter (fun b => !(b.id == i))).length + 1 =
        st.active.length
      have h := length_filter_not_countP st.active (fun b => b.id == i)
      omega
    · have hbp := (List.mem_filter.mp hb).2
      simpa using hbp
    · exact List.mem_filter.mpr ⟨hb, by simpa using hne⟩
  · unfold autoResolveAlert
    rw [hfind]
    refine ⟨⟨rfl, ?_, fun b hb => ?_, fun b hb hne => ?_⟩, rfl⟩
    · show (st.active.filter (fun b => !(b.id == a.id))).length + 1 =
        st.active.length
      have h := length_filter_not_countP st.active (fun b => b.id == a.id)
      omega
    · have hbp := (List.mem_filter.mp hb).2
      simpa using hbp
    · exact List.mem_filter.mpr ⟨hb, by simpa using hne⟩

/-- C1 counterexample: `checkAuth` allows a logged-in `user` Session to
view `/html/systemConfig.html`, yet that page is neither public nor in
`NAV_MENU` for role `user`, so "allow iff public or in the Page-Access
Matrix entry" fails at this input. -/
theorem checkAuth_matrix_counterexample :
    checkAuth "/html/systemConfig.html" (some (some (sessionFor .user))) =
        .allow ∧
      isPublicPage "/html/systemConfig.html" = false ∧
      "/html/systemConfig.html" ∉ NAV_MENU .user := by
  refine ⟨by decide, by decide, by decide⟩

/-- C1 amended: `checkAuth` allows page `p` under a Session with role
`r` iff `p` matches the public set, or `r` is `guest` and `p` matches
the guest allow-list, or `r` is a logged-in role and either `r` is
`admin` or `p` does not match the admin-only list; in particular a
guest Session requesting `/html/systemConfig.html` is denied and
redirected to `/html/dashboard.html`. -/
theorem checkAuth_allow_iff :
    (∀ r : Role, ∀ p : String,
      checkAuth p (some (some (sessionFor r))) = .allow ↔
        (isPublicPage p = true ∨
          match r with
          | .guest => isGuestAllowedPage p = true
          | .user => isAdminOnlyPage p = false
          | .admin => True)) ∧
    checkAuth "/html/systemConfig.html" (some (some (sessionFor .guest))) =
      .redirect "/html/dashboard.html" := by
  refine ⟨fun r p => ?_, by decide⟩
  cases r <;>
    cases hpub : isPublicPage p <;>
    cases hga : isGuestAllowedPage p <;>
    cases hadm : isAdminOnlyPage p <;>
    simp [checkAuth, sessionFor, hpub, hga, hadm]

/-- Witness for C6 on a one-alert store (id 1, parameter `ph`),
acknowledged, dismissed and auto-resolved at time 50. -/
theorem transitions_move_exactly_one_witness :
    ((acknowledgeAlert ⟨[⟨1, "ph", 9, "thr", "critical", "msg", 5⟩], []⟩
        1 50 true).1.active.length + 1 = 1 ∧
      acknowledgeAlert ⟨[⟨1, "ph", 9, "thr", "critical", "msg", 5⟩], []⟩
        1 50 false =
        (⟨[⟨1, "ph", 9, "thr", "critical", "msg", 5⟩], []⟩, true)) ∧
    ((dismissAlert ⟨[⟨1, "ph", 9, "thr", "critical", "msg", 5⟩], []⟩
        1 50 true true).1.active.length + 1 = 1) ∧
    ((autoResolveAlert ⟨[⟨1, "ph", 9, "thr", "critical", "msg", 5⟩], []⟩
        "ph" 50 true).active.length + 1 = 1) :=
  ⟨⟨(transitions_move_exactly_one.1
        ⟨[⟨1, "ph", 9, "thr", "critical", "msg", 5⟩], []⟩ 1 50
        ⟨1, "ph", 9, "thr", "critical", "msg", 5⟩ (by decide)
        (by decide)).1.2.1,
      (transitions_move_exactly_one.1
        ⟨[⟨1, "ph", 9, "thr", "critical", "msg", 5⟩], []⟩ 1 50
        ⟨1, "ph", 9, "thr", "critical", "msg", 5⟩ (by decide)
        (by decide)).2⟩,
    (transitions_move_exactly_one.2.1
        ⟨[⟨1, "ph", 9, "thr", "critical", "msg", 5⟩], []⟩ 1 50
        ⟨1, "ph", 9, "thr", "critical", "msg", 5⟩ (by decide)
        (by decide)).1.2.1,
    (transitions_move_exactly_one.2.2
        ⟨[⟨1, "ph", 9, "thr", "critical", "msg", 5⟩], []⟩ "ph" 50
        ⟨1, "ph", 9, "thr", "critical", "msg", 5⟩ (by decide)
        (by decide)).1.2.1⟩

/-- C5 counterexample: `acknowledgeAll` on three active alerts where
only the history write for alert id 2 fails still empties the Active
store (the unchained removals run regardless), and alert 2's record is
missing from History — instead of alert 2 remaining in Active as the
claim requires. -/
theorem acknowledgeAll_counterexample :
    (acknowledgeAll
        ⟨[⟨1, "ph", 9, "t1", "critical", "m1", 5⟩,
          ⟨2, "do", 2, "t2", "critical", "m2", 6⟩,
          ⟨3, "temperature", 40, "t3", "critical", "m3", 7⟩], []⟩
        100 (fun i => !(i == 2)) true).1.active = [] ∧
      ((acknowledgeAll
        ⟨[⟨1, "ph", 9, "t1", "critical", "m1", 5⟩,
          ⟨2, "do", 2, "t2", "critical", "m2", 6⟩,
          ⟨3, "temperature", 40, "t3", "critical", "m3", 7⟩], []⟩
        100 (fun i => !(i == 2)) true).1.history.map
          HistoryRecord.parameter) = ["ph", "temperature"] ∧
      (acknowledgeAll
        ⟨[⟨1, "ph", 9, "t1", "critical", "m1", 5⟩,
          ⟨2, "do", 2, "t2", "critical", "m2", 6⟩,
          ⟨3, "temperature", 40, "t3", "critical", "m3", 7⟩], []⟩
        100 (fun i => !(i == 2)) true).2.1 = true := by
  decide

/-- C5 amended: on a non-empty, confirmed run, `acknowledgeAll` always
empties the Active store (every removal is issued independently of its
history write), appends to History exactly the records of the alerts
whose history write succeeded, and surfaces the generic error and
restores all cards iff some history write failed. -/
theorem acknowledgeAll_partial_failure (st : AlertsState) (now : Nat)
    (w : Nat → Bool) (hne : st.active ≠ []) :
    (acknowledgeAll st now w true).1.active = [] ∧
      (acknowledgeAll st now w true).1.history =
        st.history ++ (st.active.filter (fun a => w a.id)).map
          (fun a => ackHistoryData a now) ∧
      ((acknowledgeAll st now w true).2.1 = true ↔
        ∃ a ∈ st.active, w a.id = false) ∧
      (acknowledgeAll st now w true).2.2 =
        (acknowledgeAll st now w true).2.1 := by
  unfold acknowledgeAll
  rw [if_neg (by simp [hne])]
  refine ⟨rfl, rfl, ?_, rfl⟩
  show st.active.any (fun a => !(w a.id)) = true ↔ _
  rw [List.any_eq_true]
  constructor
  · rintro ⟨a, ha, hw⟩
    exact ⟨a, ha, by simpa using hw⟩
  · rintro ⟨a, ha, hw⟩
    exact ⟨a, ha, by simpa using hw⟩

/-- Witness for C5's amended behaviour on the three-alert store with the
second history write failing. -/
theorem acknowledgeAll_partial_failure_witness :
    (acknowledgeAll
        ⟨[⟨1, "ph", 9, "t1", "critical", "m1", 5⟩,
          ⟨2, "do", 2, "t2", "critical", "m2", 6⟩,
          ⟨3, "temperature", 40, "t3", "critical", "m3", 7⟩], []⟩
        100 (fun i => !(i == 3)) true).1.active = [] ∧
      (acknowledgeAll
        ⟨[⟨1, "ph", 9, "t1", "critical", "m1", 5⟩,
          ⟨2, "do", 2, "t2", "critical", "m2", 6⟩,
          ⟨3, "temperature", 40, "t3", "critical", "m3", 7⟩], []⟩
        100 (fun i => !(i == 3)) true).1.history =
        [] ++ (([⟨1, "ph", 9, "t1", "critical", "m1", 5⟩,
          ⟨2, "do", 2, "t2", "critical", "m2", 6⟩,
          ⟨3, "temperature", 40, "t3", "critical", "m3", 7⟩] :
            List Alert).filter
            (fun a => (fun i => !(i == 3)) a.id)).map
          (fun a => ackHistoryData a 100) ∧
      ((acknowledgeAll
        ⟨[⟨1, "ph", 9, "t1", "critical", "m1", 5⟩,
          ⟨2, "do", 2, "t2", "critical", "m2", 6⟩,
          ⟨3, "temperature", 40, "t3", "critical", "m3", 7⟩], []⟩
        100 (fun i => !(i == 3)) true).2.1 = true ↔
        ∃ a ∈ ([⟨1, "ph", 9, "t1", "critical", "m1", 5⟩,
          ⟨2, "do", 2, "t2", "critical", "m2", 6⟩,
          ⟨3, "temperature", 40, "t3", "critical", "m3", 7⟩] : List Alert),
          (fun i => !(i == 3)) a.id = false) ∧
      (acknowledgeAll
        ⟨[⟨1, "ph", 9, "t1", "critical", "m1", 5⟩,
          ⟨2, "do", 2, "t2", "critical", "m2", 6⟩,
          ⟨3, "temperature", 40, "t3", "critical", "m3", 7⟩], []⟩
        100 (fun i => !(i == 3)) true).2.2 =
        (acknowledgeAll
        ⟨[⟨1, "ph", 9, "t1", "critical", "m1", 5⟩,
          ⟨2, "do", 2, "t2", "critical", "m2", 6⟩,
          ⟨3, "temperature", 40, "t3", "critical", "m3", 7⟩], []⟩
        100 (fun i => !(i == 3)) true).2.1 :=
  acknowledgeAll_partial_failure
    ⟨[⟨1, "ph", 9, "t1", "critical", "m1", 5⟩,
      ⟨2, "do", 2, "t2", "critical", "m2", 6⟩,
      ⟨3, "temperature", 40, "t3", "critical", "m3", 7⟩], []⟩
    100 (fun i => !(i == 3)) (by decide)

/-- C10: the history record written by `autoResolveAlert` carries
`acknowledged = true` and an `acknowledgedAt` timestamp besides
`autoResolved = true`; since `createAlertCard` tests `acknowledged`
before `autoResolved`, every auto-resolved history record is badged
`Acknowledged` rather than `Auto-Resolved`, and the CSV export reports
it as acknowledged (`Yes`). -/
theorem autoResolve_records_acknowledged :
    (∀ st : AlertsState, ∀ p : String, ∀ now : Nat, ∀ a : Alert,
      st.active.find? (fun b => b.parameter == p) = some a →
      (autoResolveAlert st p now true).history =
        st.history ++ [autoResolveHistoryData a now]) ∧
    (∀ a : Alert, ∀ now : Nat,
      (autoResolveHistoryData a now).acknowledged = true ∧
      (autoResolveHistoryData a now).acknowledgedAt = some now ∧
      (autoResolveHistoryData a now).autoResolved = true ∧
      historyCardStatus (autoResolveHistoryData a now) = "Acknowledged" ∧
      exportAcknowledgedCell (autoResolveHistoryData a now) = "Yes") := by
  refine ⟨fun st p now a hfind => ?_, fun a now => ⟨rfl, rfl, rfl, rfl, rfl⟩⟩
  unfold autoResolveAlert
  rw [hfind]
  rfl

/-- Witness for C10 on a one-alert store auto-resolved at time 60. -/
theorem autoResolve_records_acknowledged_witness :
    (autoResolveAlert ⟨[⟨4, "do", 2, "thr", "warning", "msg", 8⟩], []⟩
        "do" 60 true).history =
      [] ++ [autoResolveHistoryData ⟨4, "do", 2, "thr", "warning", "msg", 8⟩
        60] :=
  autoResolve_records_acknowledged.1
    ⟨[⟨4, "do", 2, "thr", "warning", "msg", 8⟩], []⟩ "do" 60
    ⟨4, "do", 2, "thr", "warning", "msg", 8⟩ (by decide)

/-- The per-parameter test of `checkIfValuesChanged`, characterised. -/
theorem changed_param_iff (data old : SensorReading) (p : String) :
    ((match paramValue data p, paramValue old p with
      | some nv, some ov => decide (|nv - ov| > mkRat 1 100)
      | _, _ => false) = true) ↔
      ∃ nv ov, paramValue data p = some nv ∧ paramValue old p = some ov ∧
        |nv - ov| > mkRat 1 100 := by
  rcases hnew : paramValue data p with _ | nv <;>
    rcases hold : paramValue old p with _ | ov <;> simp

/-- C7: the realtime listener runs `checkThresholds` on an incoming
reading iff the reading's reported update time is strictly newer than
the last-processed time and `checkIfValuesChanged` reports a change;
against a previous reading, a change means some monitored parameter
present in both readings differs by more than the absolute epsilon
0.01; and two consecutive readings both carrying `do = 4.2` trigger
classification on the first but not on the second. -/
theorem changeDetection_gate :
    (∀ st : ListenerState, ∀ data : SensorReading,
      (setupRealtimeStep st data).2 = true ↔
        (st.lastCheckTime < data.lastUpdate ∧
          checkIfValuesChanged data st.previousReadings = true)) ∧
    (∀ data old : SensorReading,
      checkIfValuesChanged data (some old) = true ↔
        ∃ p ∈ monitoredParams, ∃ nv ov,
          paramValue data p = some nv ∧ paramValue old p = some ov ∧
          |nv - ov| > mkRat 1 100) ∧
    ((setupRealtimeStep ⟨0, none⟩
        ⟨some (mkRat 21 5), none, none, none, none, 1⟩).2 = true ∧
      (setupRealtimeStep
        (setupRealtimeStep ⟨0, none⟩
          ⟨some (mkRat 21 5), none, none, none, none, 1⟩).1
        ⟨some (mkRat 21 5), none, none, none, none, 2⟩).2 = false) := by
  refine ⟨fun st data => ?_, fun data old => ?_, rfl, ?_⟩
  · unfold setupRealtimeStep
    split_ifs with h1 h2 <;> simp_all [gt_iff_lt]
  · unfold checkIfValuesChanged
    rw [List.any_eq_true]
    constructor
    · rintro ⟨p, hp, hf⟩
      exact ⟨p, hp, (changed_param_iff data old p).mp hf⟩
    · rintro ⟨p, hp, hx⟩
      exact ⟨p, hp, (changed_param_iff data old p).mpr hx⟩
  · have hchange : checkIfValuesChanged
        ⟨some (mkRat 21 5), none, none, none, none, 2⟩
        (some ⟨some (mkRat 21 5), none, none, none, none, 1⟩) = false := by
      unfold checkIfValuesChanged monitoredParams
      simp only [List.any_cons, List.any_nil, paramValue, Bool.or_false,
        Bool.or_eq_false_iff, decide_eq_false_iff_not, not_lt, sub_self,
        abs_zero]
      norm_num [Rat.mkRat_eq_div]
    have hstep1 : (setupRealtimeStep ⟨0, none⟩
        ⟨some (mkRat 21 5), none, none, none, none, 1⟩).1 =
        ⟨1, some ⟨some (mkRat 21 5), none, none, none, none, 1⟩⟩ := rfl
    rw [hstep1]
    unfold setupRealtimeStep
    rw [hchange]
    rfl

/-- C8 counterexample: a record with `safeMin 10, safeMax 20, warnMin
15, warnMax 30` passes both checks of `saveThresholds` and is
persisted, yet violates `warnMin ≤ safeMin`: the save path does not
enforce the full Threshold Record invariant. -/
theorem saveThresholds_counterexample :
    saveThresholds [("temperature", ⟨10, 20, 15, 30⟩)] =
        .saved [("temperature", ⟨10, 20, 15, 30⟩)] ∧
      ¬((⟨10, 20, 15, 30⟩ : Threshold).warnMin ≤
          (⟨10, 20, 15, 30⟩ : Threshold).safeMin) := by
  refine ⟨?_, by decide⟩
  unfold saveThresholds validateThresholdInput
  rw [if_neg (by decide), if_neg (by decide)]
  rfl

/-- C8 amended: `saveThresholds` saves exactly when every parameter
satisfies `safeMin < safeMax` and `warnMin < warnMax` (equality
rejected), persisting the inputs unchanged; every persisted record
satisfies those two strict inequalities (but not necessarily
`warnMin ≤ safeMin ≤ safeMax ≤ warnMax`); and a violating parameter
blocks the save with that parameter's name and the failed
comparison. -/
theorem saveThresholds_validation :
    (∀ inputs : List (String × Threshold),
      (∀ st ∈ inputs,
        st.2.safeMin < st.2.safeMax ∧ st.2.warnMin < st.2.warnMax) →
      saveThresholds inputs = .saved inputs) ∧
    (∀ inputs ts : List (String × Threshold),
      saveThresholds inputs = .saved ts →
      ∀ st ∈ ts,
        st.2.safeMin < st.2.safeMax ∧ st.2.warnMin < st.2.warnMax) ∧
    (∀ s : String, ∀ t : Threshold, ∀ rest : List (String × Threshold),
      t.safeMin ≥ t.safeMax →
      saveThresholds ((s, t) :: rest) =
        .rejected s "Safe Min must be less than Safe Max") ∧
    (∀ s : String, ∀ t : Threshold, ∀ rest : List (String × Threshold),
      t.safeMin < t.safeMax → t.warnMin ≥ t.warnMax →
      saveThresholds ((s, t) :: rest) =
        .rejected s "Warning Min must be less than Warning Max") := by
  refine ⟨?_, ?_, ?_, ?_⟩
  · intro inputs h
    induction inputs with
    | nil => rfl
    | cons head rest ih =>
        obtain ⟨s, t⟩ := head
        obtain ⟨h1, h2⟩ := h (s, t) (List.mem_cons_self _ _)
        have hrest := ih fun st hst => h st (List.mem_cons_of_mem _ hst)
        unfold saveThresholds validateThresholdInput
        rw [if_neg (not_le.mpr h1), if_neg (not_le.mpr h2), hrest]
  · intro inputs
    induction inputs with
    | nil =>
        intro ts hts
        unfold saveThresholds at hts
        cases hts
        intro st hst
        simp at hst
    | cons head rest ih =>
        obtain ⟨s, t⟩ := head
        intro ts hts
        unfold saveThresholds at hts
        cases hv : validateThresholdInput t with
        | some msg => rw [hv] at hts; cases hts
        | none =>
            rw [hv] at hts
            have hineq : t.safeMin < t.safeMax ∧ t.warnMin < t.warnMax := by
              unfold validateThresholdInput at hv
              split_ifs at hv with ha hb
              exact ⟨not_le.mp ha, not_le.mp hb⟩
            cases hrest : saveThresholds rest with
            | saved ts2 =>
                rw [hrest] at hts
                cases hts
                intro st hst
                rcases List.mem_cons.mp hst with h | h
                · subst h; exact hineq
                · exact ih ts2 hrest st h
            | rejected s2 m2 => rw [hrest] at hts; cases hts
  · intro s t rest h
    unfold saveThresholds validateThresholdInput
    rw [if_pos h]
  · intro s t rest h1 h2
    unfold saveThresholds validateThresholdInput
    rw [if_neg (not_le.mpr h1), if_pos h2]

/-- Witness for C8's amended claim: an equal safe pair is rejected by
name, and a fully valid map is saved. -/
theorem saveThresholds_validation_witness :
    saveThresholds [("do", ⟨5, 5, 4, 10⟩)] =
        .rejected "do" "Safe Min must be less than Safe Max" ∧
      saveThresholds [("temperature", ⟨26, 32, 24, 34⟩)] =
        .saved [("temperature", ⟨26, 32, 24, 34⟩)] :=
  ⟨saveThresholds_validation.2.2.1 "do" ⟨5, 5, 4, 10⟩ [] (by decide),
    saveThresholds_validation.1 [("temperature", ⟨26, 32, 24, 34⟩)]
      (by decide)⟩

/-- C9: `getCurrentUserRole` resolves the explicit guest flag first;
otherwise, with a uid and a reachable server holding a User Record, the
server-side role (defaulting to `user` when unset); otherwise the role
cached in the session; and with no session, a malformed session, a
missing cached role, or a throwing server read, it returns `guest`. -/
theorem getCurrentUserRole_precedence :
    (∀ server : ServerState, getCurrentUserRole none server = .guest) ∧
    (∀ server : ServerState,
      getCurrentUserRole (some none) server = .guest) ∧
    (∀ s : Session, ∀ server : ServerState, s.isGuest = true →
      getCurrentUserRole (some (some s)) server = .guest) ∧
    (∀ s : Session, ∀ uid : String,
      ∀ users : List (String × UserRecord), ∀ rec : UserRecord,
      s.isGuest = false → s.uid = some uid → users.lookup uid = some rec →
      getCurrentUserRole (some (some s)) (.reachable users) =
        rec.role.getD .user) ∧
    (∀ s : Session, ∀ uid : String, ∀ users : List (String × UserRecord),
      s.isGuest = false → s.uid = some uid → users.lookup uid = none →
      getCurrentUserRole (some (some s)) (.reachable users) =
        s.role.getD .guest) ∧
    (∀ s : Session, ∀ server : ServerState,
      s.isGuest = false → s.uid = none →
      getCurrentUserRole (some (some s)) server = s.role.getD .guest) ∧
    (∀ s : Session, s.isGuest = false →
      getCurrentUserRole (some (some s)) .unavailable =
        s.role.getD .guest) ∧
    (∀ s : Session, ∀ uid : String, s.isGuest = false → s.uid = some uid →
      getCurrentUserRole (some (some s)) .failing = .guest) := by
  refine ⟨fun server => rfl, fun server => rfl,
    fun s server hg => ?_, fun s uid users rec hg hu hl => ?_,
    fun s uid users hg hu hl => ?_, fun s server hg hu => ?_,
    fun s hg => ?_, fun s uid hg hu => ?_⟩
  · simp [getCurrentUserRole, hg]
  · simp [getCurrentUserRole, hg, hu, hl]
  · simp [getCurrentUserRole, hg, hu, hl]
  · cases server <;> simp [getCurrentUserRole, hg, hu]
  · cases hsu : s.uid <;> simp [getCurrentUserRole, hg, hsu]
  · simp [getCurrentUserRole, hg, hu]

/-- Witness for C9: the guest flag wins over a server-side admin role;
a server-side role overrides the cached role; a recordless server falls
back to the cached role. -/
theorem getCurrentUserRole_precedence_witness :
    getCurrentUserRole (some (some (sessionFor .guest)))
        (.reachable [("user-uid", ⟨some .admin⟩)]) = Role.guest ∧
      getCurrentUserRole (some (some (sessionFor .user)))
        (.reachable [("user-uid", ⟨some .admin⟩)]) = Role.admin ∧
      getCurrentUserRole (some (some (sessionFor .user)))
        (.reachable []) = Role.user :=
  ⟨getCurrentUserRole_precedence.2.2.1 (sessionFor .guest)
      (.reachable [("user-uid", ⟨some .admin⟩)]) rfl,
    getCurrentUserRole_precedence.2.2.2.1 (sessionFor .user) "user-uid"
      [("user-uid", ⟨some .admin⟩)] ⟨some .admin⟩ rfl rfl (by decide),
    getCurrentUserRole_precedence.2.2.2.2.1 (sessionFor .user) "user-uid"
      [] rfl rfl (by decide)⟩

end Fishda
